import Mathlib

/-!
Verification of the LTI 1.3 trust-boundary core of the adaptive-python-lti
repository (files `backend/lti_integration.py` and `backend/app.py`) against
its natural-language specification.

The Python code is shallowly embedded: JSON claim dictionaries become
association lists of `JValue`s, the PyJWT unverified decode becomes an
explicit `String → Except String Claims` parameter (PyJWT ≥ 2 with
`options={"verify_signature": False}` performs a pure parse and disables
every claim validation, including `exp`), module-level mutable registries
become explicit state threading, and clock reads become explicit numeric
parameters.
-/

namespace LTI

/-- JSON values, as produced by decoding a JWT payload. -/
inductive JValue where
  | null : JValue
  | jbool : Bool → JValue
  | num : Int → JValue
  | str : String → JValue
  | arr : List JValue → JValue
  | obj : List (String × JValue) → JValue

/-- A decoded claim dictionary (Python `dict` from `jwt.decode`). -/
def Claims : Type := List (String × JValue)

/-- Dictionary lookup, `claims.get(k)` / `k in claims`. -/
def claimGet (u : Claims) (k : String) : Option JValue :=
  List.lookup k u

/- Claim-key constants appearing in `lti_integration.py`. -/

def issKey : String := "iss"
def audKey : String := "aud"
def subKey : String := "sub"
def expKey : String := "exp"
def iatKey : String := "iat"
def nonceKey : String := "nonce"
def msgTypeKey : String := "https://purl.imsglobal.org/spec/lti/claim/message_type"
def versionKey : String := "https://purl.imsglobal.org/spec/lti/claim/version"
def agsKey : String := "https://purl.imsglobal.org/spec/lti-ags/claim/endpoint"
def lineitemKey : String := "lineitem"

/-- RSA private key as its numbers: modulus `n`, public exponent `e`,
private exponent `d` (the `cryptography` key object of `LTIConfig`). -/
structure RSAPrivateKey where
  n : Nat
  e : Nat
  d : Nat

/-- RSA public numbers: modulus and public exponent. -/
structure RSAPublicNumbers where
  n : Nat
  e : Nat

/-- The `private_key.public_key()` projection. -/
def RSAPrivateKey.public_key (k : RSAPrivateKey) : RSAPublicNumbers :=
  { n := k.n, e := k.e }

/-- RS256 signing modelled at the modular-exponentiation layer
(`s = m ^ d mod n`); the SHA-256 / PKCS#1 padding step, identical on the
signing and the verifying side, is left as the message itself. -/
def rsa_sign (k : RSAPrivateKey) (m : Nat) : Nat :=
  m ^ k.d % k.n

/-- RS256 verification at the same layer: `s ^ e mod n` must reproduce the
(padded) message, which is always below the modulus. -/
def rsa_verify (pub : RSAPublicNumbers) (m s : Nat) : Bool :=
  s ^ pub.e % pub.n == m

/-- The `LTIConfig` object of `lti_integration.py`: environment-supplied
platform configuration plus the persisted signing key.  `client_id` and
`deployment_id` come from `os.environ.get` without a default, hence are
optional. -/
structure LTIConfig where
  issuer : String
  client_id : Option String
  deployment_id : Option String
  tool_url : String
  private_key : RSAPrivateKey

def launchPath : String := "/lti/launch"
def jwksPath : String := "/lti/jwks"
def authLoginPath : String := "/api/lti/authorize_redirect"
def authTokenPath : String := "/login/oauth2/token"
def keysetPath : String := "/api/lti/security/jwks"

def LTIConfig.launch_url (c : LTIConfig) : String := c.tool_url ++ launchPath
def LTIConfig.jwks_url (c : LTIConfig) : String := c.tool_url ++ jwksPath
def LTIConfig.auth_login_url (c : LTIConfig) : String := c.issuer ++ authLoginPath
def LTIConfig.auth_token_url (c : LTIConfig) : String := c.issuer ++ authTokenPath
def LTIConfig.keyset_url (c : LTIConfig) : String := c.issuer ++ keysetPath

/-- The `self.public_key = self.private_key.public_key()` line of
`LTIConfig.__init__`. -/
def LTIConfig.public_key (c : LTIConfig) : RSAPublicNumbers :=
  c.private_key.public_key

/-- Python `==` between a decoded JSON value and a Python `str`. -/
def jvalEqStr : JValue → String → Bool
  | JValue.str s, t => s == t
  | _, _ => false

/-- Python `==` between a decoded JSON value and an optional `str`
(`client_id` may be `None`; JSON `null` decodes to Python `None`, and
`None == None` holds). -/
def jvalEqOptStr : JValue → Option String → Bool
  | v, some t => jvalEqStr v t
  | JValue.null, none => true
  | _, none => false

/-- The `required_claims` list of `LTIValidator.validate_launch`. -/
def required_claims : List String :=
  [issKey, audKey, subKey, expKey, iatKey, nonceKey, msgTypeKey, versionKey]

/-- The issuer comparison `unverified["iss"] != self.config.issuer`
(the claim is present when this is evaluated). -/
def issOk (u : Claims) (cfg : LTIConfig) : Bool :=
  match claimGet u issKey with
  | some v => jvalEqStr v cfg.issuer
  | none => false

/-- The audience comparison `unverified["aud"] != self.config.client_id`. -/
def audOk (u : Claims) (cfg : LTIConfig) : Bool :=
  match claimGet u audKey with
  | some v => jvalEqOptStr v cfg.client_id
  | none => false

/-- The body of `LTIValidator.validate_launch`.  `decode` stands for
`jwt.decode(id_token, options={"verify_signature": False})`: a pure parse
of the token that raises (`Except.error`) on malformed input and performs
no claim validation whatsoever — with `verify_signature` set to `False`,
PyJWT also disables `verify_exp`, `verify_nbf`, `verify_iat`, `verify_aud`
and `verify_iss`, so the `except jwt.ExpiredSignatureError` branch of the
source is unreachable and an expired token decodes normally.  Every raised
exception is caught and turned into `None`. -/
def validate_launch (decode : String → Except String Claims)
    (cfg : LTIConfig) (id_token : String) : Option Claims :=
  match decode id_token with
  | Except.error _ => none
  | Except.ok unverified =>
    if required_claims.all (fun c => (claimGet unverified c).isSome) then
      if issOk unverified cfg then
        if audOk unverified cfg then some unverified else none
      else none
    else none

def b64UrlAlphabet : String :=
  "ABCDEFGHIJKLMNOPQRSTUVWXYZabcdefghijklmnopqrstuvwxyz0123456789-_"

/-- Character of the base64url alphabet at a six-bit index. -/
def b64Char (i : Nat) : Char :=
  b64UrlAlphabet.data.getD i 'A'

/-- Big-endian byte list of `n` with `(n.bit_length() + 7) // 8` bytes —
the `n.to_bytes(byte_length, byteorder='big')` call of `int_to_base64url`
(`Nat.size` is the bit length). -/
def natToBeBytes (n : Nat) : List Nat :=
  let L := (Nat.size n + 7) / 8
  (List.range L).map (fun i => n / 256 ^ (L - 1 - i) % 256)

/-- Unpadded base64url of a byte list
(`base64.urlsafe_b64encode(bytes).decode().rstrip('=')`). -/
def b64urlEncode : List Nat → List Char
  | [] => []
  | [b1] => [b64Char (b1 / 4), b64Char (b1 % 4 * 16)]
  | [b1, b2] => [b64Char (b1 / 4), b64Char (b1 % 4 * 16 + b2 / 16), b64Char (b2 % 16 * 4)]
  | b1 :: b2 :: b3 :: rest =>
    b64Char (b1 / 4) :: b64Char (b1 % 4 * 16 + b2 / 16) ::
      b64Char (b2 % 16 * 4 + b3 / 64) :: b64Char (b3 % 64) :: b64urlEncode rest

/-- The `int_to_base64url` helper of `LTIConfig.get_public_jwks`. -/
def int_to_base64url (n : Nat) : String :=
  String.mk (b64urlEncode (natToBeBytes n))

structure JWK where
  kty : String
  alg : String
  use : String
  kid : String
  n : String
  e : String

structure JWKS where
  keys : List JWK

def rsaStr : String := "RSA"
def rs256Str : String := "RS256"
def sigStr : String := "sig"
def kidStr : String := "1"

/-- The body of `LTIConfig.get_public_jwks`. -/
def get_public_jwks (cfg : LTIConfig) : JWKS :=
  { keys := [ { kty := rsaStr, alg := rs256Str, use := sigStr, kid := kidStr,
                n := int_to_base64url cfg.public_key.n,
                e := int_to_base64url cfg.public_key.e } ] }

/-- One record of the module-level `lti_sessions` dict: the launch claims
plus the `time.time()` at which they were stored. -/
structure SessionRec where
  claims : Claims
  timestamp : Nat

/-- The module-level `lti_sessions` dict; updates prepend, lookups take the
first hit, which models dict overwrite. -/
def SessionStore : Type := List (String × SessionRec)

/-- The `store_lti_session` function (`now` is its `time.time()` read). -/
def store_lti_session (session_id : String) (lti_claims : Claims) (now : Nat)
    (store : SessionStore) : SessionStore :=
  (session_id, { claims := lti_claims, timestamp := now }) :: store

/-- The `get_lti_session` function: a hit younger than two hours yields the
stored claims, anything else `None`. -/
def get_lti_session (session_id : String) (now : Nat) (store : SessionStore) :
    Option Claims :=
  match List.lookup session_id store with
  | some session => if now - session.timestamp < 7200 then some session.claims else none
  | none => none

/-- The shared mutable module state of `app.py` that the claims concern:
the `used_nonces` set and the `lti_sessions` dict.  (`SESSIONS`, the
assessment-engine table, is out-of-scope collaborator state and carries no
launch claims.) -/
structure AppState where
  used_nonces : Finset String
  lti_sessions : SessionStore

/-- The nonce-registry effect of `lti_login`: the freshly generated random
nonce is added to `used_nonces` (`used_nonces.add(nonce)`).  The redirect
URL built from it carries no registry state and is omitted here. -/
def lti_login (nonce : String) (st : AppState) : AppState :=
  { st with used_nonces := insert nonce st.used_nonces }

/-- Python `nonce in used_nonces` for a decoded claim value against a set
of strings: a string hits iff it is registered; other hashable values
(None, numbers, booleans) are simply absent; lists and dicts are
unhashable and raise `TypeError` (the `Except.error` case). -/
def nonceMem : Option JValue → Finset String → Except Unit Bool
  | some (JValue.str s), reg => Except.ok (decide (s ∈ reg))
  | some (JValue.arr _), _ => Except.error ()
  | some (JValue.obj _), _ => Except.error ()
  | _, _ => Except.ok false

/-- Python `used_nonces.discard(nonce)`. -/
def nonceDiscard : Option JValue → Finset String → Finset String
  | some (JValue.str s), reg => reg.erase s
  | _, reg => reg

inductive LaunchResult where
  | html : String → String → Bool → LaunchResult
  | httpError : Nat → String → LaunchResult

def invalidTokenDetail : String := "Invalid LTI launch token"
def invalidNonceDetail : String := "Invalid or reused nonce"
def questionFailDetail : String := "Failed to load initial question"
def launchErrorDetail : String := "Launch error"

/-- True exactly on the successful (HTML page) launch response. -/
def LaunchResult.isValid : LaunchResult → Bool
  | LaunchResult.html _ _ _ => true
  | LaunchResult.httpError _ _ => false

/-- The `is_gradable = agsKey in claims` line of `lti_launch`. -/
def is_gradable (claims : Claims) : Bool :=
  (claimGet claims agsKey).isSome

/-- The `lti_launch` endpoint of `app.py`, as a transition on the shared
registries.  `session_id` stands for the fresh `uuid.uuid4()`, `question`
for the `next_question(session)` result of the out-of-scope engine, and
`now` for the store-time clock read.  Mutations happen in source order, so
a launch that later fails on `next_question` (HTTP 500) has still consumed
its nonce and stored its session record. -/
def lti_launch (decode : String → Except String Claims) (cfg : LTIConfig)
    (id_token session_id : String) (question : Option String) (now : Nat)
    (st : AppState) : LaunchResult × AppState :=
  match validate_launch decode cfg id_token with
  | none => (LaunchResult.httpError 401 invalidTokenDetail, st)
  | some claims =>
    match nonceMem (claimGet claims nonceKey) st.used_nonces with
    | Except.error _ => (LaunchResult.httpError 500 launchErrorDetail, st)
    | Except.ok false => (LaunchResult.httpError 401 invalidNonceDetail, st)
    | Except.ok true =>
      ((match question with
        | none => LaunchResult.httpError 500 questionFailDetail
        | some q => LaunchResult.html session_id q (is_gradable claims)),
       { used_nonces := nonceDiscard (claimGet claims nonceKey) st.used_nonces,
         lti_sessions :=
           if is_gradable claims then
             store_lti_session session_id claims now st.lti_sessions
           else st.lti_sessions })

/-- Registry states reachable from process start through the two endpoints
that touch them (`lti_login` and `lti_launch`; every other endpoint only
reads `lti_sessions`). -/
inductive Reachable : AppState → Prop
  | init : Reachable { used_nonces := ∅, lti_sessions := [] }
  | login : ∀ (nonce : String) (st : AppState),
      Reachable st → Reachable (lti_login nonce st)
  | launch : ∀ (decode : String → Except String Claims) (cfg : LTIConfig)
      (id_token session_id : String) (question : Option String) (now : Nat)
      (st : AppState), Reachable st →
      Reachable (lti_launch decode cfg id_token session_id question now st).2

/-- The client-assertion JWT built inside `_get_access_token`, header and
signing parameters included.  `now` is the `int(time.time())` read used for
`iat`/`exp`; `tjti` is the second `time.time()` read whose `str()` becomes
the `jti` — `str` is injective on clock readings, so the numeric value is
kept. -/
structure ClientAssertion where
  iss : Option String
  sub : Option String
  aud : String
  iat : Nat
  exp : Nat
  jti : Nat
  alg : String
  kid : String
  key : RSAPrivateKey

/-- The `jwt_claim` dictionary and `jwt.encode(..., algorithm="RS256",
headers={"kid": "1"})` call of `_get_access_token`. -/
def build_client_assertion (cfg : LTIConfig) (now tjti : Nat) : ClientAssertion :=
  { iss := cfg.client_id, sub := cfg.client_id, aud := cfg.auth_token_url,
    iat := now, exp := now + 300, jti := tjti,
    alg := rs256Str, kid := kidStr, key := cfg.private_key }

/-- An HTTP response from the platform, reduced to the fields the code
inspects; `access_token` models `response.json().get("access_token")`
(`none` both when the field is missing and when the body fails to parse —
the latter raises and is caught, with the same `None` outcome). -/
structure HttpResponse where
  status_code : Nat
  access_token : Option String

/-- The control flow of `_get_access_token`: a network-level failure
(`Except.error`) is caught and yields `None`; a non-200 status yields
`None`; otherwise the token field of the body is returned. -/
def get_access_token (tokenResp : Except Unit HttpResponse) : Option String :=
  match tokenResp with
  | Except.error _ => none
  | Except.ok r => if r.status_code == 200 then r.access_token else none

/-- Python truthiness of a decoded JSON value. -/
def jvalTruthy : JValue → Bool
  | JValue.null => false
  | JValue.jbool b => b
  | JValue.num n => !(n == 0)
  | JValue.str s => !(s == "")
  | JValue.arr l => !l.isEmpty
  | JValue.obj l => !l.isEmpty

/-- The control flow of `LTIGradeSubmitter.submit_grade`.  The score,
maximum and comment only populate the POSTed body and cannot change the
outcome, so they are carried as inert parameters.  Every raising path of
the source (unhashable/ill-typed claim values, network errors) sits inside
the `try` and returns `False`; a score POST succeeds exactly on status 200
or 201. -/
def submit_grade (_cfg : LTIConfig) (id_token_claims : Claims)
    (_score _max_score : ℚ) (_comment : String)
    (tokenResp scoresResp : Except Unit HttpResponse) : Bool :=
  match claimGet id_token_claims agsKey with
  | none => false
  | some ags =>
    if jvalTruthy ags then
      match ags with
      | JValue.obj fields =>
        match List.lookup lineitemKey fields with
        | none => false
        | some li =>
          if jvalTruthy li then
            match li with
            | JValue.str _ =>
              match get_access_token tokenResp with
              | none => false
              | some _ =>
                match scoresResp with
                | Except.error _ => false
                | Except.ok r => r.status_code == 200 || r.status_code == 201
            | _ => false
          else false
      | _ => false
    else false

/- Concrete instances used by the evidence theorems and witnesses. -/

/-- A small RSA key with the production public exponent 65537
(modulus 33 = 3 * 11, private exponent 13: 13 * 65537 ≡ 1 mod 20). -/
def exampleKey : RSAPrivateKey := { n := 33, e := 65537, d := 13 }

def defaultIssuer : String := "https://canvas.instructure.com"
def exampleClientId : String := "10000000000001"
def exampleDeployment : String := "1:deadbeef"
def exampleToolUrl : String := "https://tool.example.org"

def exampleConfig : LTIConfig :=
  { issuer := defaultIssuer, client_id := some exampleClientId,
    deployment_id := some exampleDeployment, tool_url := exampleToolUrl,
    private_key := exampleKey }

def resourceLinkMsg : String := "LtiResourceLinkRequest"
def ltiVersion13 : String := "1.3.0"
def exampleNonce : String := "nonce-1"
def exampleSub : String := "user-1"
def exampleLineitem : String := "https://canvas.instructure.com/api/lti/courses/1/line_items/7"
def exampleToken : String := "token-1"
def exampleSession : String := "session-1"
def exampleQuestion : String := "question-1"

/-- Payload of a token whose eight required claims are present and whose
issuer and audience match `exampleConfig`, but whose `exp` (1000) lies in
the past of any later clock instant such as 2000. -/
def expiredClaims : Claims :=
  [ (issKey, JValue.str defaultIssuer),
    (audKey, JValue.str exampleClientId),
    (subKey, JValue.str exampleSub),
    (expKey, JValue.num 1000),
    (iatKey, JValue.num 900),
    (nonceKey, JValue.str exampleNonce),
    (msgTypeKey, JValue.str resourceLinkMsg),
    (versionKey, JValue.str ltiVersion13) ]

/-- The unverified decode of a syntactically well-formed JWT carrying
`expiredClaims`: PyJWT parses it and, with `verify_signature: False`,
validates nothing. -/
def decodeExpired : String → Except String Claims :=
  fun _ => Except.ok expiredClaims

/-- Like `expiredClaims` but fresh (`exp` = 4000) and missing the `nonce`
claim entirely. -/
def noNonceClaims : Claims :=
  [ (issKey, JValue.str defaultIssuer),
    (audKey, JValue.str exampleClientId),
    (subKey, JValue.str exampleSub),
    (expKey, JValue.num 4000),
    (iatKey, JValue.num 3900),
    (msgTypeKey, JValue.str resourceLinkMsg),
    (versionKey, JValue.str ltiVersion13) ]

def decodeNoNonce : String → Except String Claims :=
  fun _ => Except.ok noNonceClaims

def otherClientId : String := "20000000000099"

/-- Fresh, fully populated claims whose audience is a different client id. -/
def badAudClaims : Claims :=
  [ (issKey, JValue.str defaultIssuer),
    (audKey, JValue.str otherClientId),
    (subKey, JValue.str exampleSub),
    (expKey, JValue.num 4000),
    (iatKey, JValue.num 3900),
    (nonceKey, JValue.str exampleNonce),
    (msgTypeKey, JValue.str resourceLinkMsg),
    (versionKey, JValue.str ltiVersion13) ]

def decodeBadAud : String → Except String Claims :=
  fun _ => Except.ok badAudClaims

/-- Fresh, fully populated, matching claims that additionally carry the
AGS endpoint claim, i.e. a gradable launch. -/
def gradableClaims : Claims :=
  [ (issKey, JValue.str defaultIssuer),
    (audKey, JValue.str exampleClientId),
    (subKey, JValue.str exampleSub),
    (expKey, JValue.num 4000),
    (iatKey, JValue.num 3900),
    (nonceKey, JValue.str exampleNonce),
    (msgTypeKey, JValue.str resourceLinkMsg),
    (versionKey, JValue.str ltiVersion13),
    (agsKey, JValue.obj [ (lineitemKey, JValue.str exampleLineitem) ]) ]

def decodeGradable : String → Except String Claims :=
  fun _ => Except.ok gradableClaims

/-- C1 (code bug evidence): an id_token whose `exp` claim (1000) lies in
the past of the clock (2000) and whose other claims are all present and
well-formed is nevertheless accepted by `validate_launch`, because the
unverified decode performs no expiry check and no other line of the
function reads `exp`; the `except jwt.ExpiredSignatureError` handler is
dead code.  The spec says such a token is REJECTED. -/
theorem validate_launch_accepts_expired_token :
    claimGet expiredClaims expKey = some (JValue.num 1000) ∧
    (1000 : Int) < 2000 ∧
    validate_launch decodeExpired exampleConfig exampleToken = some expiredClaims :=
  ⟨rfl, by norm_num, rfl⟩

/-- C9: `validate_launch` is total over arbitrary input strings and decode
behaviours: it either returns the decoded claim dictionary unchanged or
returns `none`; every raising path of the source is caught by one of the
three `except` arms. -/
theorem validate_launch_total (decode : String → Except String Claims)
    (cfg : LTIConfig) (id_token : String) :
    validate_launch decode cfg id_token = none ∨
      ∃ u, decode id_token = Except.ok u ∧
        validate_launch decode cfg id_token = some u := by
  unfold validate_launch
  cases hdec : decode id_token with
  | error e => exact Or.inl rfl
  | ok u =>
    by_cases hall : required_claims.all (fun c => (claimGet u c).isSome) = true
    · by_cases hiss : issOk u cfg = true
      · by_cases haud : audOk u cfg = true
        · exact Or.inr ⟨u, rfl, by simp [hall, hiss, haud]⟩
        · exact Or.inl (by simp [hall, hiss, haud])
      · exact Or.inl (by simp [hall, hiss])
    · exact Or.inl (by simp [hall])

/-- C8: a token missing any one of the eight required claims is rejected
(`None`), whatever the present claims contain. -/
theorem validate_launch_rejects_missing_claim
    (decode : String → Except String Claims) (cfg : LTIConfig) (id_token : String)
    (u : Claims) (k : String)
    (hdec : decode id_token = Except.ok u)
    (hreq : k ∈ required_claims)
    (hmiss : claimGet u k = none) :
    validate_launch decode cfg id_token = none := by
  have hall : required_claims.all (fun c => (claimGet u c).isSome) = false := by
    cases h : required_claims.all (fun c => (claimGet u c).isSome) with
    | false => rfl
    | true =>
      have hk := List.all_eq_true.mp h k hreq
      rw [hmiss] at hk
      simp at hk
  unfold validate_launch
  rw [hdec]
  simp [hall]

/-- Witness for C8: a token lacking exactly the `nonce` claim is rejected. -/
theorem validate_launch_rejects_missing_claim_witness :
    validate_launch decodeNoNonce exampleConfig exampleToken = none :=
  validate_launch_rejects_missing_claim decodeNoNonce exampleConfig exampleToken
    noNonceClaims nonceKey rfl (by decide) rfl

/-- C7: a token whose `aud` value is not exactly equal (under Python `==`)
to the configured client id is rejected, regardless of the remaining
checks; the comparison `unverified["aud"] != self.config.client_id` is
exact equality. -/
theorem validate_launch_rejects_aud_mismatch
    (decode : String → Except String Claims) (cfg : LTIConfig) (id_token : String)
    (u : Claims)
    (hdec : decode id_token = Except.ok u)
    (haud : audOk u cfg = false) :
    validate_launch decode cfg id_token = none := by
  unfold validate_launch
  rw [hdec]
  by_cases hall : required_claims.all (fun c => (claimGet u c).isSome) = true
  · by_cases hiss : issOk u cfg = true
    · simp [hall, hiss, haud]
    · simp [hall, hiss]
  · simp [hall]

/-- Witness for C7: claims with a valid issuer, a registered nonce value
and a foreign audience are rejected. -/
theorem validate_launch_rejects_aud_mismatch_witness :
    issOk badAudClaims exampleConfig = true ∧
    validate_launch decodeBadAud exampleConfig exampleToken = none :=
  ⟨rfl, validate_launch_rejects_aud_mismatch decodeBadAud exampleConfig exampleToken
    badAudClaims rfl rfl⟩

def exampleSession2 : String := "session-2"

def initialState : AppState := { used_nonces := ∅, lti_sessions := [] }

def loggedInState : AppState := lti_login exampleNonce initialState

def launchedState : AppState :=
  (lti_launch decodeGradable exampleConfig exampleToken exampleSession
    (some exampleQuestion) 100 loggedInState).2

/-- Evaluation of `lti_launch` on a token that validates and carries a
string nonce: the launch turns on registry membership of that nonce. -/
theorem lti_launch_eval (decode : String → Except String Claims) (cfg : LTIConfig)
    (id_token sid : String) (question : Option String) (now : Nat)
    (st : AppState) (claims : Claims) (nonce : String)
    (hval : validate_launch decode cfg id_token = some claims)
    (hn : claimGet claims nonceKey = some (JValue.str nonce)) :
    lti_launch decode cfg id_token sid question now st =
      if nonce ∈ st.used_nonces then
        ((match question with
          | none => LaunchResult.httpError 500 questionFailDetail
          | some q => LaunchResult.html sid q (is_gradable claims)),
         { used_nonces := st.used_nonces.erase nonce,
           lti_sessions :=
             if is_gradable claims then store_lti_session sid claims now st.lti_sessions
             else st.lti_sessions })
      else (LaunchResult.httpError 401 invalidNonceDetail, st) := by
  by_cases hmem : nonce ∈ st.used_nonces
  · have hd : decide (nonce ∈ st.used_nonces) = true := decide_eq_true hmem
    rw [if_pos hmem]
    simp only [lti_launch, hval, hn, nonceMem, nonceDiscard, hd]
  · have hd : decide (nonce ∈ st.used_nonces) = false := decide_eq_false hmem
    rw [if_neg hmem]
    simp only [lti_launch, hval, hn, nonceMem, nonceDiscard, hd]

/-- C2: a launch token is accepted at most once per nonce.  If the token
validates and its nonce is registered, the launch succeeds and the nonce
is erased, so an immediately following launch with the same nonce — and,
in general, any launch whose nonce is not registered — answers
HTTP 401. -/
theorem lti_launch_nonce_single_use
    (decode : String → Except String Claims) (cfg : LTIConfig)
    (id_token sid sid2 : String) (question : String) (question2 : Option String)
    (now now2 : Nat) (st : AppState) (claims : Claims) (nonce : String)
    (hval : validate_launch decode cfg id_token = some claims)
    (hn : claimGet claims nonceKey = some (JValue.str nonce)) :
    (nonce ∈ st.used_nonces →
      (lti_launch decode cfg id_token sid (some question) now st).1.isValid = true ∧
      nonce ∉ (lti_launch decode cfg id_token sid (some question) now st).2.used_nonces ∧
      (lti_launch decode cfg id_token sid2 question2 now2
        (lti_launch decode cfg id_token sid (some question) now st).2).1 =
        LaunchResult.httpError 401 invalidNonceDetail) ∧
    (nonce ∉ st.used_nonces →
      (lti_launch decode cfg id_token sid (some question) now st).1 =
        LaunchResult.httpError 401 invalidNonceDetail) := by
  constructor
  · intro hin
    have h1 := lti_launch_eval decode cfg id_token sid (some question) now st claims nonce
      hval hn
    rw [if_pos hin] at h1
    have hnot : nonce ∉ (lti_launch decode cfg id_token sid (some question) now st).2.used_nonces := by
      rw [h1]
      exact Finset.not_mem_erase nonce st.used_nonces
    refine ⟨?_, hnot, ?_⟩
    · rw [h1]
      rfl
    · have h2 := lti_launch_eval decode cfg id_token sid2 question2 now2
        (lti_launch decode cfg id_token sid (some question) now st).2 claims nonce hval hn
      rw [if_neg hnot] at h2
      rw [h2]
  · intro hout
    have h1 := lti_launch_eval decode cfg id_token sid (some question) now st claims nonce
      hval hn
    rw [if_neg hout] at h1
    rw [h1]

/-- Witness for C2: after `lti_login` registers the nonce, the first
launch renders the assessment page, and replaying the same token against
the resulting state is rejected with HTTP 401. -/
theorem lti_launch_nonce_single_use_witness :
    (lti_launch decodeGradable exampleConfig exampleToken exampleSession
      (some exampleQuestion) 100 loggedInState).1.isValid = true ∧
    (lti_launch decodeGradable exampleConfig exampleToken exampleSession2 none 200
      launchedState).1 = LaunchResult.httpError 401 invalidNonceDetail := by
  have h := (lti_launch_nonce_single_use decodeGradable exampleConfig exampleToken
    exampleSession exampleSession2 exampleQuestion none 100 200 loggedInState
    gradableClaims exampleNonce rfl rfl).1 (by decide)
  exact ⟨h.1, h.2.2⟩

/-- C4: a stored record is served strictly within the 7200-second window
after its store time and treated as absent once the window has elapsed;
in particular it is present 7199 seconds after the store and absent 7201
seconds after it. -/
theorem get_lti_session_retention_window
    (store : SessionStore) (sid : String) (claims : Claims) (t now : Nat) :
    get_lti_session sid now (store_lti_session sid claims t store) =
      (if now - t < 7200 then some claims else none) ∧
    get_lti_session sid (t + 7199) (store_lti_session sid claims t store) = some claims ∧
    get_lti_session sid (t + 7201) (store_lti_session sid claims t store) = none := by
  have hbase : ∀ n : Nat, get_lti_session sid n (store_lti_session sid claims t store) =
      (if n - t < 7200 then some claims else none) := by
    intro n
    unfold get_lti_session store_lti_session
    simp [List.lookup]
  refine ⟨hbase now, ?_, ?_⟩
  · rw [hbase (t + 7199), Nat.add_sub_cancel_left]
    norm_num
  · rw [hbase (t + 7201), Nat.add_sub_cancel_left]
    norm_num

/-- One `lti_launch` step either leaves a given `lti_sessions` record as
it was or has just inserted a gradable one. -/
theorem lti_launch_lookup_sessions
    (decode : String → Except String Claims) (cfg : LTIConfig)
    (id_token sid : String) (question : Option String) (now : Nat)
    (st : AppState) (sid' : String) (rec : SessionRec)
    (h : List.lookup sid'
      ((lti_launch decode cfg id_token sid question now st).2).lti_sessions = some rec) :
    is_gradable rec.claims = true ∨ List.lookup sid' st.lti_sessions = some rec := by
  unfold lti_launch at h
  split at h
  · exact Or.inr h
  · rename_i claims hval
    split at h
    · exact Or.inr h
    · exact Or.inr h
    · dsimp only at h
      split at h
      · rename_i hg
        simp only [store_lti_session, List.lookup] at h
        split at h
        · cases h
          exact Or.inl hg
        · exact Or.inr h
      · exact Or.inr h

/-- Invariant of the reachable registry states: every record of
`lti_sessions` holds gradable claims. -/
theorem reachable_sessions_gradable
    (st : AppState) (hreach : Reachable st) :
    ∀ sid rec, List.lookup sid st.lti_sessions = some rec →
      is_gradable rec.claims = true := by
  induction hreach with
  | init => intro sid rec h; simp [List.lookup] at h
  | login nonce st' hst ih => intro sid rec h; exact ih sid rec h
  | launch decode cfg id_token sid0 question now0 st' hst ih =>
    intro sid rec h
    rcases lti_launch_lookup_sessions decode cfg id_token sid0 question now0 st'
      sid rec h with hg | hold
    · exact hg
    · exact ih sid rec hold

/-- C10: claims reach `lti_sessions` only through a gradable launch, so a
non-absent `get_lti_session` result always contains the AGS endpoint
claim, in any state reachable through the endpoints. -/
theorem get_lti_session_only_gradable
    (st : AppState) (hreach : Reachable st)
    (sid : String) (now : Nat) (claims : Claims)
    (hget : get_lti_session sid now st.lti_sessions = some claims) :
    is_gradable claims = true := by
  unfold get_lti_session at hget
  split at hget
  · rename_i session hlk
    split at hget
    · cases hget
      exact reachable_sessions_gradable st hreach sid session hlk
    · simp at hget
  · simp at hget

/-- Witness for C10: the state reached by login followed by a gradable
launch serves claims that carry the AGS endpoint claim. -/
theorem get_lti_session_only_gradable_witness :
    is_gradable gradableClaims = true := by
  have hreach : Reachable launchedState :=
    Reachable.launch decodeGradable exampleConfig exampleToken exampleSession
      (some exampleQuestion) 100 loggedInState
      (Reachable.login exampleNonce initialState Reachable.init)
  exact get_lti_session_only_gradable launchedState hreach exampleSession 200
    gradableClaims rfl

def accessTok : String := "access-token-1"
def emptyComment : String := ""

def tokenDenied : Except Unit HttpResponse :=
  Except.ok { status_code := 400, access_token := none }

def tokenGranted : Except Unit HttpResponse :=
  Except.ok { status_code := 200, access_token := some accessTok }

def scoresForbidden : Except Unit HttpResponse :=
  Except.ok { status_code := 403, access_token := none }

def scoresCreated : Except Unit HttpResponse :=
  Except.ok { status_code := 201, access_token := none }

/-- When token acquisition yields nothing, grade submission reports
failure. -/
theorem submit_grade_false_of_token_none
    (cfg : LTIConfig) (claims : Claims) (score maxScore : ℚ) (comment : String)
    (tokenResp scoresResp : Except Unit HttpResponse)
    (h : get_access_token tokenResp = none) :
    submit_grade cfg claims score maxScore comment tokenResp scoresResp = false := by
  unfold submit_grade
  repeat' split <;> try rfl
  all_goals simp_all

/-- A score POST answered with any status other than 200 or 201 makes
grade submission report failure. -/
theorem submit_grade_false_of_bad_status
    (cfg : LTIConfig) (claims : Claims) (score maxScore : ℚ) (comment : String)
    (tokenResp scoresResp : Except Unit HttpResponse) (r : HttpResponse)
    (hs : scoresResp = Except.ok r)
    (h200 : r.status_code ≠ 200) (h201 : r.status_code ≠ 201) :
    submit_grade cfg claims score maxScore comment tokenResp scoresResp = false := by
  unfold submit_grade
  repeat' split <;> try rfl
  all_goals simp_all

/-- C3: `submit_grade` surfaces failure as `False`, never as an exception
(it is a total boolean function of the two platform responses): an HTTP
400 from the token endpoint yields `False`, and a scores-endpoint status
outside 200/201 — HTTP 403 in particular — yields `False`. -/
theorem submit_grade_reports_failure
    (cfg : LTIConfig) (claims : Claims) (score maxScore : ℚ) (comment : String)
    (tokenResp scoresResp : Except Unit HttpResponse) :
    (∀ r, tokenResp = Except.ok r → r.status_code = 400 →
      submit_grade cfg claims score maxScore comment tokenResp scoresResp = false) ∧
    (∀ r, scoresResp = Except.ok r → r.status_code ≠ 200 → r.status_code ≠ 201 →
      submit_grade cfg claims score maxScore comment tokenResp scoresResp = false) := by
  constructor
  · intro r hr h400
    apply submit_grade_false_of_token_none
    rw [hr]
    unfold get_access_token
    simp [h400]
  · intro r hr h200 h201
    exact submit_grade_false_of_bad_status cfg claims score maxScore comment
      tokenResp scoresResp r hr h200 h201

/-- Witness for C3: on gradable claims, a 400 token response and a 403
scores response each produce a `False` result. -/
theorem submit_grade_reports_failure_witness :
    submit_grade exampleConfig gradableClaims 1 1 emptyComment tokenDenied
      scoresCreated = false ∧
    submit_grade exampleConfig gradableClaims 1 1 emptyComment tokenGranted
      scoresForbidden = false := by
  constructor
  · exact (submit_grade_reports_failure exampleConfig gradableClaims 1 1 emptyComment
      tokenDenied scoresCreated).1 { status_code := 400, access_token := none }
      rfl rfl
  · exact (submit_grade_reports_failure exampleConfig gradableClaims 1 1 emptyComment
      tokenGranted scoresForbidden).2 { status_code := 403, access_token := none }
      rfl (by norm_num) (by norm_num)

/-- C6: every client assertion built for token acquisition carries issuer
and subject equal to the tool's client id, audience the platform token
endpoint, an expiry exactly 300 seconds (≤ 5 minutes) after its issued-at,
the RS256 algorithm, KeyStore's private key as signing key, a key id equal
to the kid of the published JWKS entry, and assertions built from distinct
clock readings carry distinct `jti`s. -/
theorem client_assertion_properties
    (cfg : LTIConfig) (now tjti tjti2 : Nat) (h : tjti ≠ tjti2) :
    (build_client_assertion cfg now tjti).iss = cfg.client_id ∧
    (build_client_assertion cfg now tjti).sub = cfg.client_id ∧
    (build_client_assertion cfg now tjti).aud = cfg.auth_token_url ∧
    (build_client_assertion cfg now tjti).exp ≤
      (build_client_assertion cfg now tjti).iat + 300 ∧
    (build_client_assertion cfg now tjti).alg = rs256Str ∧
    (build_client_assertion cfg now tjti).key = cfg.private_key ∧
    (get_public_jwks cfg).keys.map JWK.kid = [(build_client_assertion cfg now tjti).kid] ∧
    (build_client_assertion cfg now tjti).jti ≠ (build_client_assertion cfg now tjti2).jti :=
  ⟨rfl, rfl, rfl, le_refl _, rfl, rfl, rfl, h⟩

/-- Witness for C6 at a concrete config and two distinct clock readings. -/
theorem client_assertion_properties_witness :
    (build_client_assertion exampleConfig 1000 1000).iss = exampleConfig.client_id ∧
    (build_client_assertion exampleConfig 1000 1000).jti ≠
      (build_client_assertion exampleConfig 1000 1001).jti := by
  have h := client_assertion_properties exampleConfig 1000 1000 1001 (by norm_num)
  exact ⟨h.1, h.2.2.2.2.2.2.2⟩

/-- Fermat step: modulo a prime `p`, raising to any power of the shape
`j * (p - 1) + 1` is the identity. -/
theorem pow_fermat_step (p : Nat) (hp : p.Prime) (m j : Nat) :
    m ^ (j * (p - 1) + 1) ≡ m [MOD p] := by
  by_cases hdvd : p ∣ m
  · have h0 : m ≡ 0 [MOD p] := (Nat.modEq_zero_iff_dvd).mpr hdvd
    calc m ^ (j * (p - 1) + 1)
        ≡ 0 ^ (j * (p - 1) + 1) [MOD p] := h0.pow _
      _ = 0 := zero_pow (by omega)
      _ ≡ m [MOD p] := h0.symm
  · have hco : Nat.Coprime m p := ((Nat.Prime.coprime_iff_not_dvd hp).mpr hdvd).symm
    have heuler : m ^ (p - 1) ≡ 1 [MOD p] := by
      have ht := Nat.ModEq.pow_totient hco
      rwa [Nat.totient_prime hp] at ht
    calc m ^ (j * (p - 1) + 1)
        = (m ^ (p - 1)) ^ j * m := by
          rw [pow_add, pow_one, mul_comm j (p - 1), pow_mul]
      _ ≡ 1 ^ j * m [MOD p] := (heuler.pow j).mul_right m
      _ = m := by rw [one_pow, one_mul]

/-- C5: the published JWKS entry is exactly the encoding of the public
counterpart of the private key currently held by the config, and a
signature produced with that private key verifies against the published
public numbers (sign-then-verify round-trip) for every message below the
modulus, for any well-formed RSA key. -/
theorem jwks_matches_signing_key
    (cfg : LTIConfig) (p q m : Nat)
    (hp : p.Prime) (hq : q.Prime) (hpq : p ≠ q)
    (hn : cfg.private_key.n = p * q)
    (hkey : cfg.private_key.d * cfg.private_key.e ≡ 1 [MOD (p - 1) * (q - 1)])
    (hm : m < cfg.private_key.n) :
    (get_public_jwks cfg).keys =
      [ { kty := rsaStr, alg := rs256Str, use := sigStr, kid := kidStr,
          n := int_to_base64url cfg.private_key.public_key.n,
          e := int_to_base64url cfg.private_key.public_key.e } ] ∧
    rsa_verify cfg.public_key m (rsa_sign cfg.private_key m) = true := by
  refine ⟨rfl, ?_⟩
  have hM2 : 2 ≤ (p - 1) * (q - 1) := by
    have hp2 := hp.two_le
    have hq2 := hq.two_le
    have h3 : 3 ≤ p ∨ 3 ≤ q := by omega
    rcases h3 with h3 | h3
    · have hmul := Nat.mul_le_mul (show 2 ≤ p - 1 by omega) (show 1 ≤ q - 1 by omega)
      simpa using hmul
    · have hmul := Nat.mul_le_mul (show 1 ≤ p - 1 by omega) (show 2 ≤ q - 1 by omega)
      simpa using hmul
  have hmod1 : cfg.private_key.d * cfg.private_key.e % ((p - 1) * (q - 1)) = 1 := by
    have h1 : (1 : Nat) % ((p - 1) * (q - 1)) = 1 := Nat.mod_eq_of_lt (by omega)
    have hk := hkey
    unfold Nat.ModEq at hk
    rw [h1] at hk
    exact hk
  obtain ⟨k, hk⟩ : ∃ k,
      cfg.private_key.d * cfg.private_key.e = (p - 1) * (q - 1) * k + 1 := by
    refine ⟨cfg.private_key.d * cfg.private_key.e / ((p - 1) * (q - 1)), ?_⟩
    have hdm := Nat.div_add_mod (cfg.private_key.d * cfg.private_key.e)
      ((p - 1) * (q - 1))
    omega
  have hP : m ^ (cfg.private_key.d * cfg.private_key.e) ≡ m [MOD p] := by
    have hf := pow_fermat_step p hp m (k * (q - 1))
    have harith : k * (q - 1) * (p - 1) + 1 =
        cfg.private_key.d * cfg.private_key.e := by rw [hk]; ring
    rwa [harith] at hf
  have hQ : m ^ (cfg.private_key.d * cfg.private_key.e) ≡ m [MOD q] := by
    have hf := pow_fermat_step q hq m (k * (p - 1))
    have harith : k * (p - 1) * (q - 1) + 1 =
        cfg.private_key.d * cfg.private_key.e := by rw [hk]; ring
    rwa [harith] at hf
  have hco : Nat.Coprime p q := (Nat.coprime_primes hp hq).mpr hpq
  have hPQ : m ^ (cfg.private_key.d * cfg.private_key.e) ≡ m [MOD p * q] :=
    (Nat.modEq_and_modEq_iff_modEq_mul hco).mp ⟨hP, hQ⟩
  have hmlt : m < p * q := by rw [hn] at hm; exact hm
  have hgoal : (m ^ cfg.private_key.d % cfg.private_key.n) ^ cfg.private_key.e %
      cfg.private_key.n = m := by
    rw [hn]
    calc (m ^ cfg.private_key.d % (p * q)) ^ cfg.private_key.e % (p * q)
        = (m ^ cfg.private_key.d) ^ cfg.private_key.e % (p * q) :=
          (Nat.pow_mod _ _ _).symm
      _ = m ^ (cfg.private_key.d * cfg.private_key.e) % (p * q) := by
          rw [← pow_mul]
      _ = m % (p * q) := hPQ
      _ = m := Nat.mod_eq_of_lt hmlt
  unfold rsa_verify rsa_sign LTIConfig.public_key RSAPrivateKey.public_key
  dsimp only
  simp only [beq_iff_eq]
  exact hgoal

/-- Witness for C5: the example key (3 * 11 = 33, production exponent
65537, private exponent 13) round-trips the message 5. -/
theorem jwks_matches_signing_key_witness :
    rsa_verify exampleConfig.public_key 5 (rsa_sign exampleConfig.private_key 5) = true :=
  (jwks_matches_signing_key exampleConfig 3 11 5 (by norm_num) (by norm_num)
    (by norm_num) rfl (by decide) (by decide)).2

end LTI
